import Mathlib

/-!
Verification of the vault-analysis ingestion pipeline.

Shallow embedding of `src/etl.py` and `src/etl_with_history.py`:
the `vault_metrics` schema (`VaultMetric`, `MetricStore`), the chain
capability (`Chain`), the transform (`get_data_at_block`,
`extract_and_transform`), the backfill controller (`backfill_history`)
and the live controller (`run_live_step`, `run_live_loop`).

Python's true division on the raw integer chain reads is modelled by
exact division in `ℚ`; raw uint256 values and block numbers are `ℕ`.
Python exceptions are modelled by `Except String`.
-/

namespace VaultAnalysis

/-- One row of the `vault_metrics` table.  Mirrors the SQLAlchemy model
`VaultMetric` (identical in `etl.py` and `etl_with_history.py`):
`timestamp` (nullable, DB default when `none`), `block_number`,
`tvl_assets`, `share_price`, and `raw_total_assets` stored as text
(`none` when the constructing code never set the column). -/
structure VaultMetric where
  timestamp : Option Nat
  block_number : Nat
  tvl_assets : ℚ
  share_price : ℚ
  raw_total_assets : Option String
  deriving DecidableEq, Repr

/-- A stored row: the store-assigned surrogate key `id` plus the metric.
`id` is the only primary-key column of `vault_metrics`. -/
structure StoredRow where
  id : Nat
  metric : VaultMetric
  deriving DecidableEq, Repr

/-- The relational store backing `vault_metrics`: the rows inserted so
far plus the autoincrement counter for the `id` primary key. -/
structure MetricStore where
  rows : List StoredRow
  nextId : Nat
  deriving DecidableEq, Repr

/-- The schema's only uniqueness constraint is the primary key on `id`:
an insert conflicts exactly when some stored row already has that id.
No constraint mentions `block_number`. -/
def idConflict (s : MetricStore) (i : Nat) : Bool :=
  s.rows.any (fun r => r.id = i)

/-- `session.add` + `session.commit`: append the metric with a fresh
autoincrement id.  The only error the schema can raise is a violation
of the `id` primary key; `block_number` is unconstrained. -/
def MetricStore.insert (s : MetricStore) (m : VaultMetric) : Except String MetricStore :=
  if idConflict s s.nextId then
    .error "duplicate key value violates unique constraint on id"
  else
    .ok ⟨s.rows ++ [⟨s.nextId, m⟩], s.nextId + 1⟩

/-- Well-formedness of the store: every assigned id is below the
autoincrement counter (true of any store built by inserts). -/
def wfStore (s : MetricStore) : Prop :=
  ∀ r ∈ s.rows, r.id < s.nextId

/-- Number of stored rows carrying a given block number. -/
def countBlock (s : MetricStore) (b : Nat) : Nat :=
  (s.rows.filter (fun r => r.metric.block_number = b)).length

/-- Block numbers of the stored rows, in insertion order. -/
def storedBlocks (s : MetricStore) : List Nat :=
  s.rows.map (fun r => r.metric.block_number)

/-- The empty store as created by `Base.metadata.create_all`; SQLAlchemy
autoincrement ids start at 1. -/
def store0 : MetricStore := ⟨[], 1⟩

/-- The `ChainReader` capability: the current head block number and the
three contract reads plus the block-timestamp read, each fallible
(network faults, pruned historical state).  `decimals` takes no block
argument because both pipelines call it without a block identifier. -/
structure Chain where
  latest : Nat
  totalAssets : Nat → Except String Nat
  totalSupply : Nat → Except String Nat
  decimals : Except String Nat
  blockTimestamp : Nat → Except String Nat

/-- `VaultETL.get_data_at_block` of `etl_with_history.py`: read
`totalAssets` and `totalSupply` at the given block, `decimals` at the
current head, and the block timestamp; build the metric with
`tvl_assets = raw_assets / 10 ** decimals` and
`share_price = raw_assets / raw_supply if raw_supply > 0 else 1.0`.
The constructor call sets no `raw_total_assets`. -/
def get_data_at_block (c : Chain) (block_number : Nat) : Except String VaultMetric :=
  match c.totalAssets block_number with
  | .error e => .error e
  | .ok raw_assets =>
    match c.totalSupply block_number with
    | .error e => .error e
    | .ok raw_supply =>
      match c.decimals with
      | .error e => .error e
      | .ok decimals =>
        match c.blockTimestamp block_number with
        | .error e => .error e
        | .ok ts =>
          .ok { timestamp := some ts
                block_number := block_number
                tvl_assets := (raw_assets : ℚ) / 10 ^ decimals
                share_price := if raw_supply > 0 then (raw_assets : ℚ) / (raw_supply : ℚ) else 1
                raw_total_assets := none }

/-- `VaultETL.extract_and_transform` of `etl.py`: read the three scalars
at the current head, normalize, and build the metric, retaining the raw
assets value as text via `raw_total_assets=str(raw_assets)`.  The
`timestamp` column is left to its DB default. -/
def extract_and_transform (c : Chain) : Except String VaultMetric :=
  match c.totalAssets c.latest with
  | .error e => .error e
  | .ok raw_assets =>
    match c.totalSupply c.latest with
    | .error e => .error e
    | .ok raw_supply =>
      match c.decimals with
      | .error e => .error e
      | .ok decimals =>
        .ok { timestamp := none
              block_number := c.latest
              tvl_assets := (raw_assets : ℚ) / 10 ^ decimals
              share_price := if raw_supply > 0 then (raw_assets : ℚ) / (raw_supply : ℚ) else 1
              raw_total_assets := some (toString raw_assets) }

/-- Python's `range(start, stop, step)` for a positive step, written with
an explicit fuel `stop - start` so that it computes structurally: the
elements `start, start + step, …` strictly below `stop`. -/
def pyRangeAux : Nat → Nat → Nat → Nat → List Nat
  | 0, _, _, _ => []
  | fuel + 1, start, stop, step =>
    if start < stop then start :: pyRangeAux fuel (start + step) stop step else []

/-- Python's `range(start, stop, step)`; `range` with step 0 raises in
Python, a case the pipeline never exercises, modelled as the empty
sequence. -/
def pyRange (start stop step : Nat) : List Nat :=
  if step = 0 then [] else pyRangeAux (stop - start) start stop step

/-- Result of a backfill run: the final store, the blocks at which the
`ChainReader` was sampled (in order), and the per-block failures that
were logged and skipped. -/
structure BackfillResult where
  store : MetricStore
  sampled : List Nat
  errors : List (Nat × String)
  deriving DecidableEq, Repr

/-- The `for block in range(...)` loop body of
`VaultETL.backfill_history`: sample the block, insert, commit; any
exception rolls the transaction back, is logged, and the loop continues
with the next block. -/
def backfill_loop (c : Chain) : List Nat → MetricStore → BackfillResult
  | [], s => ⟨s, [], []⟩
  | b :: rest, s =>
    match get_data_at_block c b with
    | .ok metric =>
      match s.insert metric with
      | .ok s' =>
        let r := backfill_loop c rest s'
        ⟨r.store, b :: r.sampled, r.errors⟩
      | .error e =>
        let r := backfill_loop c rest s
        ⟨r.store, b :: r.sampled, (b, e) :: r.errors⟩
    | .error e =>
      let r := backfill_loop c rest s
      ⟨r.store, b :: r.sampled, (b, e) :: r.errors⟩

/-- `VaultETL.backfill_history` of `etl_with_history.py`: if the row
count is zero, walk `range(deployment_block, current_head, step)`
sampling and inserting one metric per stride block; otherwise skip
entirely (no chain access, no insert). -/
def backfill_history (c : Chain) (s : MetricStore) (deployment_block step : Nat) :
    BackfillResult :=
  if s.rows.length = 0 then
    backfill_loop c (pyRange deployment_block c.latest step) s
  else
    ⟨s, [], []⟩

/-- `sub` occurs in `s` iff splitting `s` on `sub` yields more than one
piece. -/
def containsSub (s sub : String) : Bool :=
  (s.splitOn sub).length > 1

/-- The error filter of `run_live`:
`"unique constraint" not in str(e).lower()` decides whether the caught
error is printed; a match is treated as a benign duplicate and
suppressed. -/
def suppressedDup (e : String) : Bool :=
  containsSub e.toLower "unique constraint"

/-- One iteration of the `while True` body of `VaultETL.run_live`:
resolve the latest block, sample it, insert and commit; on any
exception roll back and surface the error message unless it mentions a
unique-constraint violation.  Returns the store after the iteration and
the surfaced error, if any. -/
def run_live_step (c : Chain) (s : MetricStore) : MetricStore × Option String :=
  match get_data_at_block c c.latest with
  | .ok metric =>
    match s.insert metric with
    | .ok s' => (s', none)
    | .error e => (s, if suppressedDup e then none else some e)
  | .error e => (s, if suppressedDup e then none else some e)

/-- The `run_live` polling loop over a finite schedule of chain states
(one per interval; the real loop runs until the process is killed).
Returns the final store, the surfaced errors, and the number of
iterations executed. -/
def run_live_loop : List Chain → MetricStore → MetricStore × List String × Nat
  | [], s => (s, [], 0)
  | c :: rest, s =>
    let (s', err) := run_live_step c s
    let (s'', errs, n) := run_live_loop rest s'
    (s'', err.toList ++ errs, n + 1)

/-- `VaultETL.load` of `etl.py`: insert and commit inside a
try/except/finally; a failure rolls back and is logged, never
propagated.  Returns the store after the call and the logged error, if
any. -/
def load (s : MetricStore) (m : VaultMetric) : MetricStore × Option String :=
  match s.insert m with
  | .ok s' => (s', none)
  | .error e => (s, some e)

/-- The `while True` loop of `VaultETL.run` in `etl.py` over a finite
schedule of chain states.  `extract_and_transform` is called outside
any try block, so its exception propagates and terminates the loop
(`.error`); `load` errors are caught inside `load`.  On normal
exhaustion of the schedule, returns the store and the number of
iterations executed. -/
def run_loop : List Chain → MetricStore → Except String (MetricStore × Nat)
  | [], s => .ok (s, 0)
  | c :: rest, s =>
    match extract_and_transform c with
    | .error e => .error e
    | .ok m =>
      match run_loop rest (load s m).1 with
      | .ok (s', n) => .ok (s', n + 1)
      | .error e => .error e

/-- The module-level configuration check of `etl_with_history.py`:
`RPC_URL` and `DB_URL` are read from the environment (`none` when
absent), and the module raises `ValueError` iff `RPC_URL` is falsy.
Python's `if not RPC_URL` is true for both a missing and an empty
value. -/
def truthy : Option String → Bool
  | none => false
  | some s => s ≠ ""

/-- Module-init validation in `etl_with_history.py` lines 16-20: only
the RPC endpoint's presence is checked explicitly; `DB_URL` is read but
not tested here. -/
def module_init (rpc db : Option String) : Except String Unit :=
  if truthy rpc then .ok () else .error "RPC_URL not found in environment"

/-- The external SQLAlchemy `create_engine(DB_URL)` call made by
`VaultETL.__init__` (`etl_with_history.py` line 49): constructing an
engine from a missing connection string raises (`make_url` rejects a
non-string URL), and an empty string fails to parse; a well-formed URL
constructs the engine without connecting.  External capability,
modelled by this connection-string validation only. -/
def create_engine : Option String → Except String Unit
  | none => .error "Expected string or URL object, got None"
  | some url =>
    if url = "" then .error "Could not parse SQLAlchemy URL" else .ok ()

/-- Startup of `etl_with_history.py` up to the end of
`VaultETL.__init__`: the module-level `RPC_URL` check (lines 16-20)
runs first, then `__init__` builds the lazy Web3 provider (no network
access) and calls `create_engine(DB_URL)` (line 49).  Both error paths
raise before any chain sampling or store insert can occur; the
controllers (`backfill_history`, `run_live`) only run after startup
returns. -/
def startup (rpc db : Option String) : Except String Unit :=
  match module_init rpc db with
  | .error e => .error e
  | .ok _ => create_engine db

/-- Whether a fallible computation succeeded. -/
def isOkB : Except String VaultMetric → Bool
  | .ok _ => true
  | .error _ => false

/-! ### Concrete test fixtures -/

/-- A healthy chain whose head stays at block 500:
`totalAssets = 1500000000`, `totalSupply = 1000000000`, `decimals = 9`. -/
def chainOk : Chain :=
  { latest := 500
    totalAssets := fun _ => .ok 1500000000
    totalSupply := fun _ => .ok 1000000000
    decimals := .ok 9
    blockTimestamp := fun _ => .ok 1758000000 }

/-- The metric `get_data_at_block chainOk 500` produces. -/
def metricLive : VaultMetric :=
  { timestamp := some 1758000000
    block_number := 500
    tvl_assets := ((1500000000 : ℕ) : ℚ) / 10 ^ (9 : ℕ)
    share_price :=
      if (1000000000 : ℕ) > 0 then ((1500000000 : ℕ) : ℚ) / ((1000000000 : ℕ) : ℚ) else 1
    raw_total_assets := none }

/-- The metric `extract_and_transform chainOk` produces. -/
def metricExtract : VaultMetric :=
  { timestamp := none
    block_number := 500
    tvl_assets := ((1500000000 : ℕ) : ℚ) / 10 ^ (9 : ℕ)
    share_price :=
      if (1000000000 : ℕ) > 0 then ((1500000000 : ℕ) : ℚ) / ((1000000000 : ℕ) : ℚ) else 1
    raw_total_assets := some (toString (1500000000 : ℕ)) }

/-- A chain whose vault has issued no shares: `totalSupply = 0`. -/
def chainZeroSupply : Chain :=
  { latest := 400
    totalAssets := fun _ => .ok 1500000000
    totalSupply := fun _ => .ok 0
    decimals := .ok 9
    blockTimestamp := fun _ => .ok 1758000000 }

/-- The metric `get_data_at_block chainZeroSupply 400` produces. -/
def metricZeroSupply : VaultMetric :=
  { timestamp := some 1758000000
    block_number := 400
    tvl_assets := ((1500000000 : ℕ) : ℚ) / 10 ^ (9 : ℕ)
    share_price := if (0 : ℕ) > 0 then ((1500000000 : ℕ) : ℚ) / ((0 : ℕ) : ℚ) else 1
    raw_total_assets := none }

/-- A healthy chain with head at block 350 (backfill boundary example). -/
def chain350 : Chain :=
  { latest := 350
    totalAssets := fun _ => .ok 1500000000
    totalSupply := fun _ => .ok 1000000000
    decimals := .ok 9
    blockTimestamp := fun _ => .ok 1758000000 }

/-- A chain with head at 350 whose `totalAssets` read fails at block 200
only (injected per-block fault). -/
def chainFaultAt200 : Chain :=
  { latest := 350
    totalAssets := fun b => if b = 200 then .error "RPC timeout" else .ok 1500000000
    totalSupply := fun _ => .ok 1000000000
    decimals := .ok 9
    blockTimestamp := fun _ => .ok 1758000000 }

/-- A chain whose `totalAssets` read always fails. -/
def chainBad : Chain :=
  { latest := 500
    totalAssets := fun _ => .error "RPC timeout"
    totalSupply := fun _ => .ok 1000000000
    decimals := .ok 9
    blockTimestamp := fun _ => .ok 1758000000 }

/-- A plain metric row for pre-populated stores in the fixtures. -/
def rowMetric (b : Nat) : VaultMetric :=
  { timestamp := none
    block_number := b
    tvl_assets := 1
    share_price := 1
    raw_total_assets := none }

/-- A store already holding one row (for block 100). -/
def storeOneRow : MetricStore := ⟨[⟨1, rowMetric 100⟩], 2⟩

/-- A store already holding one row for block 500. -/
def storeBlock500 : MetricStore := ⟨[⟨1, rowMetric 500⟩], 2⟩

/-! ### Helper lemmas -/

theorem get_data_at_block_block_number (c : Chain) (b : Nat) (m : VaultMetric)
    (h : get_data_at_block c b = .ok m) : m.block_number = b := by
  unfold get_data_at_block at h
  repeat' split at h
  all_goals (try (exact (Except.noConfusion h)))
  all_goals (injection h with h; subst h)
  all_goals simp_all

theorem get_data_at_block_tvl (c : Chain) (b a d : Nat) (m : VaultMetric)
    (ha : c.totalAssets b = .ok a) (hd : c.decimals = .ok d)
    (h : get_data_at_block c b = .ok m) : m.tvl_assets = (a : ℚ) / 10 ^ d := by
  unfold get_data_at_block at h
  rw [ha, hd] at h
  repeat' split at h
  all_goals (try (exact (Except.noConfusion h)))
  all_goals (injection h with h; subst h)
  all_goals simp_all

theorem get_data_at_block_share_price (c : Chain) (b a p : Nat) (m : VaultMetric)
    (ha : c.totalAssets b = .ok a) (hp : c.totalSupply b = .ok p)
    (h : get_data_at_block c b = .ok m) :
    m.share_price = if p > 0 then (a : ℚ) / (p : ℚ) else 1 := by
  unfold get_data_at_block at h
  rw [ha, hp] at h
  repeat' split at h
  all_goals (try (exact (Except.noConfusion h)))
  all_goals (injection h with h; subst h)
  all_goals simp_all

theorem get_data_at_block_raw (c : Chain) (b : Nat) (m : VaultMetric)
    (h : get_data_at_block c b = .ok m) : m.raw_total_assets = none := by
  unfold get_data_at_block at h
  repeat' split at h
  all_goals (try (exact (Except.noConfusion h)))
  all_goals (injection h with h; subst h)
  all_goals simp_all

theorem extract_and_transform_tvl (c : Chain) (a d : Nat) (m : VaultMetric)
    (ha : c.totalAssets c.latest = .ok a) (hd : c.decimals = .ok d)
    (h : extract_and_transform c = .ok m) : m.tvl_assets = (a : ℚ) / 10 ^ d := by
  unfold extract_and_transform at h
  rw [ha, hd] at h
  repeat' split at h
  all_goals (try (exact (Except.noConfusion h)))
  all_goals (injection h with h; subst h)
  all_goals simp_all

theorem extract_and_transform_share_price (c : Chain) (a p : Nat) (m : VaultMetric)
    (ha : c.totalAssets c.latest = .ok a) (hp : c.totalSupply c.latest = .ok p)
    (h : extract_and_transform c = .ok m) :
    m.share_price = if p > 0 then (a : ℚ) / (p : ℚ) else 1 := by
  unfold extract_and_transform at h
  rw [ha, hp] at h
  repeat' split at h
  all_goals (try (exact (Except.noConfusion h)))
  all_goals (injection h with h; subst h)
  all_goals simp_all

theorem extract_and_transform_raw (c : Chain) (a : Nat) (m : VaultMetric)
    (ha : c.totalAssets c.latest = .ok a)
    (h : extract_and_transform c = .ok m) :
    m.raw_total_assets = some (toString a) := by
  unfold extract_and_transform at h
  rw [ha] at h
  repeat' split at h
  all_goals (try (exact (Except.noConfusion h)))
  all_goals (injection h with h; subst h)
  all_goals simp_all

theorem insert_eq_of_wf (s : MetricStore) (m : VaultMetric) (hwf : wfStore s) :
    s.insert m = .ok ⟨s.rows ++ [⟨s.nextId, m⟩], s.nextId + 1⟩ := by
  unfold MetricStore.insert
  rw [if_neg]
  intro hc
  rcases List.any_eq_true.mp hc with ⟨r, hr, hid⟩
  exact absurd (hwf r hr) (by simp_all)

theorem wf_insert (s s' : MetricStore) (m : VaultMetric) (hwf : wfStore s)
    (h : s.insert m = .ok s') : wfStore s' := by
  rw [insert_eq_of_wf s m hwf] at h
  injection h with h
  subst h
  intro r hr
  rcases List.mem_append.mp hr with hr | hr
  · exact Nat.lt_succ_of_lt (hwf r hr)
  · simp_all

theorem backfill_loop_sampled (c : Chain) (bs : List Nat) (s : MetricStore) :
    (backfill_loop c bs s).sampled = bs := by
  induction bs generalizing s with
  | nil => rfl
  | cons b rest ih =>
    cases hget : get_data_at_block c b with
    | error e => simp [backfill_loop, hget, ih s]
    | ok metric =>
      cases hins : s.insert metric with
      | error e => simp [backfill_loop, hget, hins, ih s]
      | ok s' => simp [backfill_loop, hget, hins, ih s']

theorem backfill_loop_mono (c : Chain) (bs : List Nat) (s : MetricStore) (r : StoredRow)
    (hr : r ∈ s.rows) : r ∈ (backfill_loop c bs s).store.rows := by
  induction bs generalizing s with
  | nil => exact hr
  | cons b rest ih =>
    cases hget : get_data_at_block c b with
    | error e =>
      simp only [backfill_loop, hget]
      exact ih s hr
    | ok metric =>
      cases hins : s.insert metric with
      | error e =>
        simp only [backfill_loop, hget, hins]
        exact ih s hr
      | ok s' =>
        simp only [backfill_loop, hget, hins]
        refine ih s' ?_
        unfold MetricStore.insert at hins
        split at hins
        · exact (Except.noConfusion hins)
        · injection hins with hins
          subst hins
          simp [hr]

theorem backfill_loop_persist (c : Chain) (bs : List Nat) (s : MetricStore) (b : Nat)
    (hwf : wfStore s) (hb : b ∈ bs) (hok : isOkB (get_data_at_block c b) = true) :
    b ∈ storedBlocks (backfill_loop c bs s).store := by
  induction bs generalizing s with
  | nil => cases hb
  | cons x rest ih =>
    rcases List.mem_cons.mp hb with rfl | hb
    · obtain ⟨m, hm⟩ : ∃ m, get_data_at_block c b = .ok m := by
        cases hg : get_data_at_block c b with
        | error e => rw [hg] at hok; exact absurd hok (by simp [isOkB])
        | ok m => exact ⟨m, rfl⟩
      simp only [backfill_loop, hm, insert_eq_of_wf s m hwf]
      have hrow : (⟨s.nextId, m⟩ : StoredRow) ∈
          (backfill_loop c rest ⟨s.rows ++ [⟨s.nextId, m⟩], s.nextId + 1⟩).store.rows :=
        backfill_loop_mono c rest _ _ (by simp)
      have : m.block_number = b := get_data_at_block_block_number c b m hm
      exact this ▸ List.mem_map.mpr ⟨_, hrow, rfl⟩
    · cases hget : get_data_at_block c x with
      | error e =>
        simp only [backfill_loop, hget]
        exact ih s hwf hb
      | ok metric =>
        cases hins : s.insert metric with
        | error e =>
          simp only [backfill_loop, hget, hins]
          exact ih s hwf hb
        | ok s' =>
          simp only [backfill_loop, hget, hins]
          exact ih s' (wf_insert s s' metric hwf hins) hb

theorem pyRangeAux_le (fuel start stop step b : Nat)
    (hb : b ∈ pyRangeAux fuel start stop step) : start ≤ b := by
  induction fuel generalizing start with
  | zero => cases hb
  | succ fuel ih =>
    unfold pyRangeAux at hb
    split at hb
    · rcases List.mem_cons.mp hb with rfl | hb
      · exact Nat.le_refl b
      · exact Nat.le_trans (Nat.le_add_right start step) (ih (start + step) hb)
    · cases hb

theorem pyRangeAux_mem (fuel start stop step b : Nat) (hstep : 0 < step)
    (hfuel : stop - start ≤ fuel) :
    b ∈ pyRangeAux fuel start stop step ↔ ∃ i, b = start + i * step ∧ b < stop := by
  induction fuel generalizing start with
  | zero =>
    simp only [pyRangeAux, List.not_mem_nil, false_iff]
    rintro ⟨i, rfl, hlt⟩
    have : start ≤ start + i * step := Nat.le_add_right _ _
    omega
  | succ fuel ih =>
    unfold pyRangeAux
    split
    · rename_i hlt
      have ihx := ih (start + step) (by omega)
      constructor
      · intro hmem
        rcases List.mem_cons.mp hmem with rfl | hmem
        · exact ⟨0, by simp, hlt⟩
        · rcases ihx.mp hmem with ⟨i, rfl, hb⟩
          exact ⟨i + 1, by rw [Nat.succ_mul]; omega, hb⟩
      · rintro ⟨i, rfl, hb⟩
        cases i with
        | zero => simp
        | succ j =>
          refine List.mem_cons_of_mem _ (ihx.mpr ⟨j, ?_, hb⟩)
          rw [Nat.succ_mul]
          omega
    · rename_i hge
      simp only [List.not_mem_nil, false_iff]
      rintro ⟨i, rfl, hlt⟩
      have : start ≤ start + i * step := Nat.le_add_right _ _
      omega

theorem pyRange_mem (start stop step b : Nat) (hstep : 0 < step) :
    b ∈ pyRange start stop step ↔ ∃ i, b = start + i * step ∧ b < stop := by
  unfold pyRange
  rw [if_neg (Nat.pos_iff_ne_zero.mp hstep)]
  exact pyRangeAux_mem _ _ _ _ _ hstep (Nat.le_refl _)

theorem pyRangeAux_pairwise (fuel start stop step : Nat) (hstep : 0 < step) :
    (pyRangeAux fuel start stop step).Pairwise (· < ·) := by
  induction fuel generalizing start with
  | zero => exact List.Pairwise.nil
  | succ fuel ih =>
    unfold pyRangeAux
    split
    · refine List.pairwise_cons.mpr ⟨fun b hb => ?_, ih (start + step)⟩
      have := pyRangeAux_le fuel (start + step) stop step b hb
      omega
    · exact List.Pairwise.nil

theorem pyRange_pairwise (start stop step : Nat) (hstep : 0 < step) :
    (pyRange start stop step).Pairwise (· < ·) := by
  unfold pyRange
  rw [if_neg (Nat.pos_iff_ne_zero.mp hstep)]
  exact pyRangeAux_pairwise _ _ _ _ hstep

theorem wf_store0 : wfStore store0 :=
  fun r hr => absurd hr (List.not_mem_nil r)

theorem wf_storeBlock500 : wfStore storeBlock500 := by
  intro r hr
  simp [storeBlock500] at hr
  subst hr
  decide

/-! ### Claims -/

/-- C1: the claim says two consecutive live iterations that resolve the
same latest block leave exactly one stored row, the second insert being
suppressed as a duplicate.  The code disagrees: `block_number` carries
no uniqueness constraint, so the second insert succeeds and the store
ends up with two rows for block 500, with no error surfaced on either
iteration.  This theorem evaluates `run_live_step` twice on a chain
whose head is stuck at 500. -/
theorem C1_same_block_inserted_twice :
    (run_live_step chainOk store0).2 = none ∧
    (run_live_step chainOk (run_live_step chainOk store0).1).2 = none ∧
    countBlock (run_live_step chainOk (run_live_step chainOk store0).1).1 500 = 2 := by
  decide

/-- C2: both transforms yield `tvl_assets = raw_assets / 10 ^ decimals`
whenever the underlying reads report `raw_assets` and `decimals`. -/
theorem C2_tvl_normalized (c : Chain) (b a d : Nat) (m mE : VaultMetric) :
    (c.totalAssets b = .ok a → c.decimals = .ok d →
      get_data_at_block c b = .ok m → m.tvl_assets = (a : ℚ) / 10 ^ d) ∧
    (c.totalAssets c.latest = .ok a → c.decimals = .ok d →
      extract_and_transform c = .ok mE → mE.tvl_assets = (a : ℚ) / 10 ^ d) :=
  ⟨fun ha hd h => get_data_at_block_tvl c b a d m ha hd h,
   fun ha hd h => extract_and_transform_tvl c a d mE ha hd h⟩

/-- Witness for C2 at `raw_assets = 1500000000`, `decimals = 9`: both
transforms yield `tvl_assets = 3 / 2 = 1.5`. -/
theorem C2_tvl_normalized_witness :
    chainOk.totalAssets 500 = .ok 1500000000 ∧
    chainOk.decimals = .ok 9 ∧
    get_data_at_block chainOk 500 = .ok metricLive ∧
    extract_and_transform chainOk = .ok metricExtract ∧
    metricLive.tvl_assets = 3 / 2 ∧
    metricExtract.tvl_assets = 3 / 2 :=
  ⟨rfl, rfl, rfl, rfl,
   ((C2_tvl_normalized chainOk 500 1500000000 9 metricLive metricExtract).1
     rfl rfl rfl).trans (by norm_num),
   ((C2_tvl_normalized chainOk 500 1500000000 9 metricLive metricExtract).2
     rfl rfl rfl).trans (by norm_num)⟩

/-- C3: both transforms yield `share_price = raw_assets / raw_supply`
when `raw_supply > 0`, and the sentinel `1.0` when `raw_supply = 0`,
regardless of `raw_assets`. -/
theorem C3_share_price_cases (c : Chain) (b a p : Nat) (m mE : VaultMetric) :
    (c.totalAssets b = .ok a → c.totalSupply b = .ok p →
      get_data_at_block c b = .ok m →
      (0 < p → m.share_price = (a : ℚ) / (p : ℚ)) ∧ (p = 0 → m.share_price = 1)) ∧
    (c.totalAssets c.latest = .ok a → c.totalSupply c.latest = .ok p →
      extract_and_transform c = .ok mE →
      (0 < p → mE.share_price = (a : ℚ) / (p : ℚ)) ∧ (p = 0 → mE.share_price = 1)) := by
  constructor
  · intro ha hp h
    have hs := get_data_at_block_share_price c b a p m ha hp h
    exact ⟨fun hpos => by rw [hs, if_pos hpos],
           fun h0 => by rw [hs]; subst h0; simp⟩
  · intro ha hp h
    have hs := extract_and_transform_share_price c a p mE ha hp h
    exact ⟨fun hpos => by rw [hs, if_pos hpos],
           fun h0 => by rw [hs]; subst h0; simp⟩

/-- Witness for C3: with `raw_supply = 1000000000` the share price is
`1500000000 / 1000000000 = 3 / 2`; with `raw_supply = 0` it is the
sentinel `1`. -/
theorem C3_share_price_cases_witness :
    chainOk.totalAssets 500 = .ok 1500000000 ∧
    chainOk.totalSupply 500 = .ok 1000000000 ∧
    get_data_at_block chainOk 500 = .ok metricLive ∧
    metricLive.share_price = 3 / 2 ∧
    chainZeroSupply.totalSupply 400 = .ok 0 ∧
    get_data_at_block chainZeroSupply 400 = .ok metricZeroSupply ∧
    metricZeroSupply.share_price = 1 :=
  ⟨rfl, rfl, rfl,
   (((C3_share_price_cases chainOk 500 1500000000 1000000000 metricLive metricLive).1
     rfl rfl rfl).1 (by norm_num)).trans (by norm_num),
   rfl, rfl,
   ((C3_share_price_cases chainZeroSupply 400 1500000000 0 metricZeroSupply metricZeroSupply).1
     rfl rfl rfl).2 rfl⟩

/-- C4: when the store already holds at least one row, the backfill
performs zero inserts: the store is returned unchanged, no block is
sampled, and no error is recorded. -/
theorem C4_backfill_skip_when_nonempty (c : Chain) (s : MetricStore)
    (deployment_block step : Nat) (h : 0 < s.rows.length) :
    backfill_history c s deployment_block step = ⟨s, [], []⟩ := by
  unfold backfill_history
  rw [if_neg (by omega)]

/-- Witness for C4: a store holding one row is returned untouched. -/
theorem C4_backfill_skip_when_nonempty_witness :
    0 < storeOneRow.rows.length ∧
    backfill_history chainOk storeOneRow 100 100 = ⟨storeOneRow, [], []⟩ :=
  ⟨by decide, C4_backfill_skip_when_nonempty chainOk storeOneRow 100 100 (by decide)⟩

/-- C5: on an empty store the backfill samples exactly the arithmetic
sequence `deployment_block, deployment_block + step, …` of blocks
strictly below the current head, in strictly increasing order. -/
theorem C5_backfill_block_sequence (c : Chain) (s : MetricStore)
    (deployment_block step : Nat) (hstep : 0 < step) (hs : s.rows = []) :
    (backfill_history c s deployment_block step).sampled =
      pyRange deployment_block c.latest step ∧
    (∀ b, b ∈ pyRange deployment_block c.latest step ↔
      ∃ i, b = deployment_block + i * step ∧ b < c.latest) ∧
    (pyRange deployment_block c.latest step).Pairwise (· < ·) := by
  refine ⟨?_, fun b => pyRange_mem _ _ _ b hstep, pyRange_pairwise _ _ _ hstep⟩
  unfold backfill_history
  rw [if_pos (by rw [hs]; rfl)]
  exact backfill_loop_sampled _ _ _

/-- Witness for C5: with deployment block 100, head 350 and step 100
the sampled blocks are exactly `[100, 200, 300]`. -/
theorem C5_backfill_block_sequence_witness :
    (0 : ℕ) < 100 ∧ store0.rows = [] ∧
    (backfill_history chain350 store0 100 100).sampled = pyRange 100 350 100 ∧
    pyRange 100 350 100 = [100, 200, 300] :=
  ⟨by decide, rfl,
   (C5_backfill_block_sequence chain350 store0 100 100 (by decide) rfl).1,
   by decide⟩

/-- C6: on an empty store, every stride block is sampled no matter
which blocks fail, and every stride block whose sample succeeds is
persisted — one failing block never aborts the run. -/
theorem C6_backfill_fault_isolation (c : Chain) (s : MetricStore)
    (deployment_block step : Nat) (hs : s.rows = []) (hwf : wfStore s) :
    (∀ b, b ∈ pyRange deployment_block c.latest step →
      b ∈ (backfill_history c s deployment_block step).sampled) ∧
    (∀ b, b ∈ pyRange deployment_block c.latest step →
      isOkB (get_data_at_block c b) = true →
      b ∈ storedBlocks (backfill_history c s deployment_block step).store) := by
  unfold backfill_history
  rw [if_pos (by rw [hs]; rfl)]
  exact ⟨fun b hb => by rw [backfill_loop_sampled]; exact hb,
         fun b hb hok => backfill_loop_persist c _ s b hwf hb hok⟩

/-- Witness for C6: injecting a failure at block 200 of the sequence
`[100, 200, 300]` still samples 200 and persists blocks 100 and 300;
the final store holds exactly those two blocks. -/
theorem C6_backfill_fault_isolation_witness :
    store0.rows = [] ∧
    (200 : ℕ) ∈ (backfill_history chainFaultAt200 store0 100 100).sampled ∧
    (100 : ℕ) ∈ storedBlocks (backfill_history chainFaultAt200 store0 100 100).store ∧
    (300 : ℕ) ∈ storedBlocks (backfill_history chainFaultAt200 store0 100 100).store ∧
    storedBlocks (backfill_history chainFaultAt200 store0 100 100).store = [100, 300] :=
  ⟨rfl,
   (C6_backfill_fault_isolation chainFaultAt200 store0 100 100 rfl wf_store0).1
     200 (by decide),
   (C6_backfill_fault_isolation chainFaultAt200 store0 100 100 rfl wf_store0).2
     100 (by decide) (by decide),
   (C6_backfill_fault_isolation chainFaultAt200 store0 100 100 rfl wf_store0).2
     300 (by decide) (by decide),
   by decide⟩

/-- C7 counterexample: the claim says every persisted metric carries the
raw assets value as text, but a live iteration of
`etl_with_history.py` persists a row whose `raw_total_assets` was never
set (`get_data_at_block` omits the column). -/
theorem C7_raw_assets_missing_counterexample :
    (run_live_step chainOk store0).1.rows.map (fun r => r.metric.raw_total_assets) =
      [none] := by
  decide

/-- C7 amended: only `etl.py`'s `extract_and_transform` retains the raw
assets value verbatim as text; `etl_with_history.py`'s
`get_data_at_block` (used by both backfill and live) leaves
`raw_total_assets` unset. -/
theorem C7_raw_assets_retention (c : Chain) (b a : Nat) (m mE : VaultMetric) :
    (c.totalAssets c.latest = .ok a → extract_and_transform c = .ok mE →
      mE.raw_total_assets = some (toString a)) ∧
    (get_data_at_block c b = .ok m → m.raw_total_assets = none) :=
  ⟨fun ha h => extract_and_transform_raw c a mE ha h,
   fun h => get_data_at_block_raw c b m h⟩

/-- Witness for C7 amended at the concrete chain. -/
theorem C7_raw_assets_retention_witness :
    chainOk.totalAssets 500 = .ok 1500000000 ∧
    extract_and_transform chainOk = .ok metricExtract ∧
    metricExtract.raw_total_assets = some (toString (1500000000 : ℕ)) ∧
    get_data_at_block chainOk 500 = .ok metricLive ∧
    metricLive.raw_total_assets = none :=
  ⟨rfl, rfl,
   (C7_raw_assets_retention chainOk 500 1500000000 metricLive metricExtract).1 rfl rfl,
   rfl,
   (C7_raw_assets_retention chainOk 500 1500000000 metricLive metricExtract).2 rfl⟩

/-- C8 counterexample: in `etl.py`, `extract_and_transform` runs outside
the try block of `load`, so a sampling error propagates and terminates
`run` before the remaining intervals execute: the loop over the
schedule `[chainBad, chainOk]` dies with the read error instead of
continuing. -/
theorem C8_run_dies_on_read_error_counterexample :
    run_loop [chainBad, chainOk] store0 = .error "RPC timeout" := rfl

/-- C8 amended: in `etl_with_history.py`, `run_live` catches every
error inside the loop body, so the loop executes one iteration per
interval of any schedule; in `etl.py`, an extraction error propagates
out of `run` and terminates the loop. -/
theorem C8_error_containment :
    (∀ (chains : List Chain) (s : MetricStore),
      (run_live_loop chains s).2.2 = chains.length) ∧
    (∀ (c : Chain) (rest : List Chain) (s : MetricStore) (e : String),
      extract_and_transform c = .error e → run_loop (c :: rest) s = .error e) := by
  constructor
  · intro chains
    induction chains with
    | nil => intro s; rfl
    | cons c rest ih => intro s; simp [run_live_loop, ih]
  · intro c rest s e h
    simp [run_loop, h]

/-- Witness for C8 amended: the live loop executes both iterations of a
schedule whose first read fails, while `etl.py`'s loop dies on it. -/
theorem C8_error_containment_witness :
    (run_live_loop [chainBad, chainOk] store0).2.2 = 2 ∧
    extract_and_transform chainBad = .error "RPC timeout" ∧
    run_loop [chainBad] store0 = .error "RPC timeout" :=
  ⟨C8_error_containment.1 [chainBad, chainOk] store0,
   rfl,
   C8_error_containment.2 chainBad [] store0 "RPC timeout" rfl⟩

/-- C9: startup succeeds exactly when both connection parameters are
present and non-empty; a missing (or empty) RPC endpoint or store
connection string makes startup raise — the RPC endpoint at the
module-level check, the store connection string at
`create_engine(DB_URL)` inside `VaultETL.__init__` — in either case
before any sampling or insert can occur. -/
theorem C9_missing_config_fatal (rpc db : Option String) :
    (startup rpc db = .ok () ↔ truthy rpc = true ∧ truthy db = true) ∧
    ((truthy rpc = false ∨ truthy db = false) → ∃ e, startup rpc db = .error e) := by
  cases rpc with
  | none => simp [startup, module_init, truthy]
  | some r =>
    cases db with
    | none =>
      by_cases hr : r = "" <;>
        simp [startup, module_init, create_engine, truthy, hr]
    | some d =>
      by_cases hr : r = "" <;> by_cases hd : d = "" <;>
        simp [startup, module_init, create_engine, truthy, hr, hd]

/-- Witness for C9 at concrete configurations: both parameters present
lets startup succeed; a missing store connection string aborts startup
at engine construction; a missing RPC endpoint aborts it at the module
check. -/
theorem C9_missing_config_fatal_witness :
    startup (some "https://rpc.example") (some "postgres://user@host/db") = .ok () ∧
    startup (some "https://rpc.example") none =
      .error "Expected string or URL object, got None" ∧
    startup none (some "postgres://user@host/db") =
      .error "RPC_URL not found in environment" :=
  ⟨(C9_missing_config_fatal (some "https://rpc.example")
      (some "postgres://user@host/db")).1.mpr ⟨by decide, by decide⟩,
   rfl, rfl⟩

/-- C10: the schema's only uniqueness constraint is the autoincrement
id, so inserting a metric always succeeds on a well-formed store — in
particular for a block number already present — and the number of rows
stored for that block number grows by one. -/
theorem C10_block_number_not_unique (s : MetricStore) (m : VaultMetric)
    (hwf : wfStore s) :
    s.insert m = .ok ⟨s.rows ++ [⟨s.nextId, m⟩], s.nextId + 1⟩ ∧
    ∀ s', s.insert m = .ok s' →
      countBlock s' m.block_number = countBlock s m.block_number + 1 := by
  refine ⟨insert_eq_of_wf s m hwf, fun s' h => ?_⟩
  rw [insert_eq_of_wf s m hwf] at h
  injection h with h
  subst h
  simp [countBlock, List.filter_append]

/-- Witness for C10: a store already holding a row for block 500
accepts a second metric for block 500 and then holds two rows for it. -/
theorem C10_block_number_not_unique_witness :
    countBlock storeBlock500 500 = 1 ∧
    storeBlock500.insert (rowMetric 500) =
      .ok ⟨storeBlock500.rows ++ [⟨storeBlock500.nextId, rowMetric 500⟩],
           storeBlock500.nextId + 1⟩ ∧
    countBlock ⟨storeBlock500.rows ++ [⟨storeBlock500.nextId, rowMetric 500⟩],
           storeBlock500.nextId + 1⟩ 500 = 2 :=
  ⟨by decide,
   (C10_block_number_not_unique storeBlock500 (rowMetric 500) wf_storeBlock500).1,
   by decide⟩

end VaultAnalysis
